import Mathlib

/-!
Shallow embedding of the manuscript parsing / classification engine
(src/parser.py) and of the cover image validator and auto-corrector
(src/cover_validator.py) of the production-Studio repository.

Strings are modelled by Lean `String` / `List Char`; Python float
arithmetic in the cover validator is modelled by exact rationals `ℚ`
(the float literal 1.6 is modelled as 8/5; at the integer dimensions
involved the comparisons agree).  Machine recursion that Python's `re`
module performs is spelled out as executable Lean functions.
-/

namespace Studio

/-- Whitespace as matched by Python's regex class and by str.split /
str.strip on the character sets that occur in manuscripts (ASCII
whitespace plus the C1 separator controls). -/
def isPySpace (c : Char) : Bool :=
  c = ' ' || c = '\t' || c = '\n' || c = '\r' || c = '\x0b' || c = '\x0c' ||
  c = '\x1c' || c = '\x1d' || c = '\x1e' || c = '\x1f' || c = '\x85'

/-- Line-break characters recognised by Python str.splitlines (the
subset that can occur after decoding; '\r\n' pairs are handled in
`pySplitlinesAux`). -/
def isLineBreakChar (c : Char) : Bool :=
  c = '\n' || c = '\r' || c = '\x0b' || c = '\x0c' ||
  c = '\x1c' || c = '\x1d' || c = '\x1e' || c = '\x85'

/-- Helper for `pyWords`: accumulates the current word (reversed). -/
def pyWordsAux : List Char → List Char → List (List Char)
  | [], acc => if acc = [] then [] else [acc.reverse]
  | c :: rest, acc =>
      if isPySpace c then
        if acc = [] then pyWordsAux rest [] else acc.reverse :: pyWordsAux rest []
      else pyWordsAux rest (c :: acc)

/-- Python `line.split()`: the maximal whitespace-free words of a line. -/
def pyWords (l : List Char) : List (List Char) := pyWordsAux l []

/-- Python `str.strip()` restricted to whitespace. -/
def pyStrip (l : List Char) : List Char :=
  ((l.dropWhile isPySpace).reverse.dropWhile isPySpace).reverse

/-- Python `str.strip()` on `String`. -/
def pyStripStr (s : String) : String := ⟨pyStrip s.data⟩

/-- Python `str.lower()` on the ASCII range (extension strings). -/
def pyLower (s : String) : String := ⟨s.data.map Char.toLower⟩

/-- Python `str.upper()` on the ASCII range (image format names). -/
def pyUpper (s : String) : String := ⟨s.data.map Char.toUpper⟩

/-- Embeds `_normalize_space` of src/parser.py:
`re.sub(r"\s+", " ", text).strip()` replaces every maximal whitespace
run by a single space and then trims the ends; that is exactly the
whitespace-separated words of the line joined by single spaces. -/
def normalize_space (s : String) : String :=
  String.intercalate " " ((pyWords s.data).map (fun w => (⟨w⟩ : String)))

/-- Helper for `pySplitlines`; the accumulator holds the current line
reversed. -/
def pySplitlinesAux : List Char → List Char → List (List Char)
  | [], acc => if acc = [] then [] else [acc.reverse]
  | '\r' :: '\n' :: rest, acc => acc.reverse :: pySplitlinesAux rest []
  | c :: rest, acc =>
      if isLineBreakChar c then acc.reverse :: pySplitlinesAux rest []
      else pySplitlinesAux rest (c :: acc)

/-- Python `str.splitlines()` (no trailing empty line for a trailing
terminator). -/
def pySplitlines (l : List Char) : List (List Char) := pySplitlinesAux l []

/-- Separator recognition for `re.split(r"\n\s*\n", raw)`: called on the
characters that follow an initial '\n'.  The regex match consumes the
initial newline plus the longest whitespace prefix that still ends with
a '\n'; this function returns the remainder after the last '\n' of the
leading whitespace run, or `none` when that run contains no '\n'
(so no separator starts here). -/
def blankSep : List Char → Option (List Char)
  | [] => none
  | c :: rest =>
      if isPySpace c then
        match blankSep rest with
        | some r => some r
        | none => if c = '\n' then some rest else none
      else none

/-- Fueled worker for the `re.split(r"\n\s*\n", raw)` scan of
`_split_text_to_blocks`; each fuel unit consumes at least one input
character, so `fuel = length` always suffices. -/
def splitBlankAux : Nat → List Char → List Char → List (List Char)
  | 0, l, acc => [acc.reverse ++ l]
  | _ + 1, [], acc => [acc.reverse]
  | fuel + 1, '\n' :: rest, acc =>
      match blankSep rest with
      | some rest' => acc.reverse :: splitBlankAux fuel rest' []
      | none => splitBlankAux fuel rest ('\n' :: acc)
  | fuel + 1, c :: rest, acc => splitBlankAux fuel rest (c :: acc)

/-- The chunks `re.split(r"\n\s*\n", raw)` produces in
`_split_text_to_blocks`. -/
def splitBlank (l : List Char) : List (List Char) := splitBlankAux l.length l []

/-- Word characters of Python's `\w` on the ASCII range. -/
def isWordChar (c : Char) : Bool := c.isAlpha || c.isDigit || c = '_'

/-- Case-insensitive literal-prefix test (Python re.IGNORECASE on an
ASCII alternation branch). -/
def ciPrefix : List Char → List Char → Option (List Char)
  | [], l => some l
  | _ :: _, [] => none
  | p :: ps, c :: cs => if p.toLower = c.toLower then ciPrefix ps cs else none

/-- After one alternation branch of CHAPTER_RE has matched, the regex
requires `\s+[\w\d]+`: at least one whitespace character, then (after
the greedy whitespace run) at least one word character. -/
def wsThenWordChar (l : List Char) : Bool :=
  match l.takeWhile isPySpace, l.dropWhile isPySpace with
  | [], _ => false
  | _ :: _, c :: _ => isWordChar c
  | _ :: _, [] => false

/-- Embeds `CHAPTER_RE.match(line)` of src/parser.py:
`^(chapter|book|part)\s+[\w\d]+` with re.IGNORECASE, anchored at the
start of the line. -/
def chapterReMatch (l : List Char) : Bool :=
  (match ciPrefix "chapter".data l with
   | some rest => wsThenWordChar rest
   | none => false) ||
  (match ciPrefix "book".data l with
   | some rest => wsThenWordChar rest
   | none => false) ||
  (match ciPrefix "part".data l with
   | some rest => wsThenWordChar rest
   | none => false)

/-- Python `str.isupper()` on the ASCII range: at least one cased
character and no lower-case cased character. -/
def pyIsUpper (l : List Char) : Bool :=
  l.any (fun c => c.isAlpha) && l.all (fun c => !c.isLower)

/-- One backtracking width `k ∈ {1,2,3}` of
`re.match(r"^\d{1,3}[.: -]\s+\w+", line)`: `k` digits, one separator
from the class {'.', ':', ' ', '-'}, then `\s+\w` as in the chapter
pattern. -/
def numLabelTry (k : Nat) (l : List Char) : Bool :=
  (l.take k).length = k && (l.take k).all (fun c => c.isDigit) &&
  (match l.drop k with
   | c :: rest => (c = '.' || c = ':' || c = ' ' || c = '-') && wsThenWordChar rest
   | [] => false)

/-- Embeds `re.match(r"^\d{1,3}[.: -]\s+\w+", line)` of
`_looks_like_chapter_heading`. -/
def numLabelMatch (l : List Char) : Bool :=
  numLabelTry 1 l || numLabelTry 2 l || numLabelTry 3 l

/-- Embeds `_looks_like_chapter_heading` of src/parser.py. -/
def looks_like_chapter_heading (line : String) : Bool :=
  if chapterReMatch line.data then true
  else if 9 < (pyWords line.data).length then false
  else if pyIsUpper line.data && decide (line.data.length ≤ 80) then true
  else if numLabelMatch line.data then true
  else false

/-- The surviving normalized lines of one chunk:
`[_normalize_space(line) for line in chunk.splitlines() if _normalize_space(line)]`. -/
def survivingLines (chunk : List Char) : List String :=
  ((pySplitlines chunk).map (fun l => normalize_space ⟨l⟩)).filter (fun s => s ≠ "")

/-- The strings one chunk contributes in the loop body of
`_split_text_to_blocks`: nothing for an all-blank chunk; the heading
line plus (if any lines remain) the remainder joined with single
spaces; otherwise all lines joined with single spaces. -/
def chunkBlocks (chunk : List Char) : List String :=
  match survivingLines chunk with
  | [] => []
  | hd :: tl =>
      if looks_like_chapter_heading hd then
        hd :: (if tl = [] then [] else [normalize_space (String.intercalate " " tl)])
      else
        [normalize_space (String.intercalate " " (hd :: tl))]

/-- Embeds `_split_text_to_blocks` of src/parser.py. -/
def split_text_to_blocks (raw : String) : List String :=
  (splitBlank raw.data).flatMap chunkBlocks

/-- Embeds the `Block` dataclass of src/parser.py. -/
structure Block where
  kind : String
  text : String
  deriving DecidableEq

/-- Embeds the `Manuscript` dataclass of src/parser.py. -/
structure Manuscript where
  title : String
  author : String
  blocks : List Block
  deriving DecidableEq

/-- Embeds `_classify_blocks` of src/parser.py. -/
def classify_blocks (lines : List String) : List Block :=
  lines.map (fun line =>
    if looks_like_chapter_heading line then { kind := "chapter", text := line }
    else { kind := "paragraph", text := line })

/-- The .mobi rejection message raised by parse_manuscript. -/
def mobiMessage : String :=
  "MOBI is deprecated for many KDP workflows. Upload DOCX/EPUB/KPF or another accepted source file."

/-- The .kpf rejection message raised by parse_manuscript. -/
def kpfMessage : String :=
  "KPF is KDP-ready and is handled as a direct pass-through package."

/-- The unsupported-extension message raised by parse_manuscript. -/
def unsupportedMessage : String :=
  "Unsupported manuscript type. Use DOC/DOCX/KPF/EPUB/HTML/ZIP/TXT/RTF/PDF/MD sources."

/-- The empty-manuscript message raised by parse_manuscript. -/
def emptyMessage : String :=
  "The manuscript appears empty after parsing."

/-- The lower-cased extensions for which parse_manuscript dispatches to
an extractor (in source order of the if/elif chain). -/
def parsedSuffixes : List String :=
  [ ".docx", ".doc", ".txt", ".md", ".html", ".htm", ".zip", ".rtf", ".pdf", ".epub"]

/-- Embeds `parse_manuscript` of src/parser.py.  The per-format
extractors perform file IO and library calls; their successful output
(the list of extracted normalized lines handed to `_classify_blocks`)
is abstracted as the `extracted` argument, so this models every run in
which extraction itself did not raise.  Python exceptions are modelled
by `Except String` carrying the ValueError message. -/
def parse_manuscript (suffix : String) (extracted : List String)
    (title author : String) : Except String Manuscript :=
  let s := pyLower suffix
  if s = ".docx" || s = ".doc" || s = ".txt" || s = ".md" || s = ".html" ||
     s = ".htm" || s = ".zip" || s = ".rtf" || s = ".pdf" || s = ".epub" then
    let blocks := classify_blocks extracted
    if blocks = [] then .error emptyMessage
    else .ok { title := pyStripStr title, author := pyStripStr author, blocks := blocks }
  else if s = ".mobi" then .error mobiMessage
  else if s = ".kpf" then .error kpfMessage
  else .error unsupportedMessage

/-- Naive prefix test on character lists (for substring search in
error messages). -/
def charsPrefix : List Char → List Char → Bool
  | [], _ => true
  | _ :: _, [] => false
  | a :: as, b :: bs => a = b && charsPrefix as bs

/-- Substring containment on character lists. -/
def containsSub (needle : List Char) : List Char → Bool
  | [] => charsPrefix needle []
  | c :: rest => charsPrefix needle (c :: rest) || containsSub needle rest

/-! Cover image validator and auto-corrector (src/cover_validator.py).
An image file is modelled by the decode outcome: either an error text
(PIL UnidentifiedImageError) or the decoded properties that
validate_cover_image reads from the PIL Image, plus the on-disk file
size in megabytes which the function reads separately. -/

/-- The properties `validate_cover_image` reads from a decoded PIL
image: `img.format` (absent for some in-memory images), `img.mode`,
`img.size` and the optional `dpi` metadata pair. -/
structure DecodedImage where
  format : Option String
  mode : String
  width : Nat
  height : Nat
  dpi : Option (ℚ × ℚ)
  deriving DecidableEq

/-- The individual error messages `validate_cover_image` can append,
tagged by check and carrying the measured values interpolated into the
message text. -/
inductive CoverIssue where
  | unreadable (role : String)
  | badFormat (fmt : String)
  | tooSmall (w h : Nat)
  | tooLarge (w h : Nat)
  | badRatio (ratio : ℚ)
  | dpiMissing
  | badDpi (x y : ℚ)
  | oversize (size_mb : ℚ)
  | badMode (mode : String)
  deriving DecidableEq

/-- The warning messages `validate_cover_image` can append. -/
inductive CoverWarning where
  | notIdeal (w h : Nat)
  | lowHeightHD
  deriving DecidableEq

/-- Embeds the `CoverValidationResult` dataclass. -/
structure CoverValidationResult where
  valid : Bool
  errors : List CoverIssue
  warnings : List CoverWarning
  width : Option Nat := none
  height : Option Nat := none
  fmt : Option String := none
  mode : Option String := none
  dpi : Option (ℚ × ℚ) := none
  size_mb : Option ℚ := none
  deriving DecidableEq

def KDP_ALLOWED_FORMATS : List String := [ "JPEG", "TIFF"]
def KDP_IDEAL_WIDTH : Nat := 1600
def KDP_IDEAL_HEIGHT : Nat := 2560
def KDP_MIN_WIDTH : Nat := 625
def KDP_MIN_HEIGHT : Nat := 1000
def KDP_MAX_WIDTH : Nat := 10000
def KDP_MAX_HEIGHT : Nat := 10000

/-- Minimum height/width ratio; the Python float literal 1.6 modelled
as the exact rational. -/
def KDP_MIN_RATIO : ℚ := 8 / 5

def KDP_REQUIRED_DPI : ℚ := 72
def KDP_MAX_SIZE_MB : ℚ := 50

/-- The ratio computation of validate_cover_image:
`(height / width) if width else 0.0`. -/
def coverRatio (img : DecodedImage) : ℚ :=
  if img.width ≠ 0 then (img.height : ℚ) / (img.width : ℚ) else 0

/-- Embeds `validate_cover_image` of src/cover_validator.py.  The
`decoded` argument is the outcome of `Image.open` (error = the
UnidentifiedImageError text), `size_mb` is the file size
`path.stat().st_size / (1024*1024)` in exact arithmetic. -/
def validate_cover_image (decoded : Except String DecodedImage)
    (size_mb : ℚ) (role : String) : CoverValidationResult :=
  match decoded with
  | .error _ =>
      { valid := false, errors := [.unreadable role], warnings := [] }
  | .ok img =>
      let fmt := pyUpper (img.format.getD "")
      let ratio := coverRatio img
      let errors : List CoverIssue :=
        (if ¬ (fmt ∈ KDP_ALLOWED_FORMATS) then [.badFormat fmt] else []) ++
        (if img.width < KDP_MIN_WIDTH ∨ img.height < KDP_MIN_HEIGHT then
            [.tooSmall img.width img.height] else []) ++
        (if img.width > KDP_MAX_WIDTH ∨ img.height > KDP_MAX_HEIGHT then
            [.tooLarge img.width img.height] else []) ++
        (if ratio < KDP_MIN_RATIO then [.badRatio ratio] else []) ++
        (match img.dpi with
         | none => [.dpiMissing]
         | some (x, y) =>
             if |x - KDP_REQUIRED_DPI| > 1 ∨ |y - KDP_REQUIRED_DPI| > 1 then
               [.badDpi x y] else []) ++
        (if size_mb ≥ KDP_MAX_SIZE_MB then [.oversize size_mb] else []) ++
        (if img.mode ≠ "RGB" then [.badMode img.mode] else [])
      let warnings : List CoverWarning :=
        (if img.width ≠ KDP_IDEAL_WIDTH ∨ img.height ≠ KDP_IDEAL_HEIGHT then
            [.notIdeal img.width img.height] else []) ++
        (if img.height < 2500 then [.lowHeightHD] else [])
      { valid := errors.isEmpty, errors := errors, warnings := warnings,
        width := some img.width, height := some img.height,
        fmt := some fmt, mode := some img.mode,
        dpi := img.dpi, size_mb := some size_mb }

/-- Python `round` (round half to even), as used by
`PIL.ImageOps.contain` on the scaled dimension. -/
def pyRound (q : ℚ) : ℤ :=
  let f := ⌊q⌋
  if q - f < 1 / 2 then f
  else if q - f > 1 / 2 then f + 1
  else if Even f then f else f + 1

/-- Embeds the size computation of `PIL.ImageOps.contain(img, (bw, bh))`
(the library call on line 110 of src/cover_validator.py): keep the box
size when the aspect ratios agree, otherwise shrink the box on the
non-limiting axis to preserve the image's aspect ratio; the image is
then resized to exactly this size, up or down. -/
def containSize (w h bw bh : Nat) : Nat × Nat :=
  if (w : ℚ) / (h : ℚ) ≠ (bw : ℚ) / (bh : ℚ) then
    if (w : ℚ) / (h : ℚ) > (bw : ℚ) / (bh : ℚ) then
      let nh := pyRound ((h : ℚ) / (w : ℚ) * (bw : ℚ))
      if nh ≠ (bh : ℤ) then (bw, nh.toNat) else (bw, bh)
    else
      let nw := pyRound ((w : ℚ) / (h : ℚ) * (bh : ℚ))
      if nw ≠ (bw : ℤ) then (nw.toNat, bh) else (bw, bh)
  else (bw, bh)

/-- The size of the `fitted` artwork computed inside
`auto_correct_cover_to_kdp` before it is pasted onto the canvas. -/
def auto_correct_fitted (img : DecodedImage) : Nat × Nat :=
  containSize img.width img.height KDP_IDEAL_WIDTH KDP_IDEAL_HEIGHT

/-- Embeds `auto_correct_cover_to_kdp` of src/cover_validator.py at the
level of the decoded properties of the saved output file: the fitted
artwork is centered on a fresh RGB canvas of exactly 1600x2560 which is
saved as JPEG with dpi metadata (72, 72).  The size in MB of the
encoded JPEG file is not computable in this model and is passed
separately where needed. -/
def auto_correct_cover_to_kdp (_img : DecodedImage) : DecodedImage :=
  { format := some "JPEG", mode := "RGB",
    width := KDP_IDEAL_WIDTH, height := KDP_IDEAL_HEIGHT,
    dpi := some (KDP_REQUIRED_DPI, KDP_REQUIRED_DPI) }

/-! Helper lemmas shared between the claim theorems. -/

/-- Membership in `parsedSuffixes` spelled out as the disjunction the
dispatch chain of `parse_manuscript` tests. -/
theorem mem_parsedSuffixes_iff (s : String) :
    s ∈ parsedSuffixes ↔
      s = ".docx" ∨ s = ".doc" ∨ s = ".txt" ∨ s = ".md" ∨ s = ".html" ∨
      s = ".htm" ∨ s = ".zip" ∨ s = ".rtf" ∨ s = ".pdf" ∨ s = ".epub" := by
  simp [parsedSuffixes]

/-- The validity flag of every validator result equals emptiness of its
error list (both branches of `validate_cover_image` set it that way). -/
theorem validate_valid_eq_isEmpty (decoded : Except String DecodedImage)
    (size_mb : ℚ) (role : String) :
    (validate_cover_image decoded size_mb role).valid =
      (validate_cover_image decoded size_mb role).errors.isEmpty := by
  cases decoded <;> rfl

/-! Sanity check: the block-splitting scenario of the specification. -/

example :
    classify_blocks (split_text_to_blocks
        "Chapter One\n\nIt was a dark night.\n\nThe wind howled.") =
      [ { kind := "chapter", text := "Chapter One" },
        { kind := "paragraph", text := "It was a dark night." },
        { kind := "paragraph", text := "The wind howled." }] := by decide

/-! Claim theorems. -/

/-- C1 (counterexample): on the input text "CHAPTER\nONE" — one
blank-line-delimited chunk whose first surviving line "CHAPTER" is a
heading — the remaining line "ONE" is emitted, but `_classify_blocks`
re-runs the heading classifier on the emitted text and assigns it kind
chapter, not paragraph, so a line not at the start of a chunk does
yield a chapter block in the final classified list. -/
theorem c1_counterexample :
    classify_blocks (split_text_to_blocks "CHAPTER\nONE") =
      [ { kind := "chapter", text := "CHAPTER" },
        { kind := "chapter", text := "ONE" }] := by decide

/-- C1 (amended): each blank-line-delimited chunk contributes at most
two strings; the final classified list is the per-chunk strings in
order, each given the kind the heading classifier assigns to the
emitted text itself; within a chunk only the first surviving
normalized line is tested by the splitter, and when it is a heading
the remaining lines joined with single spaces form exactly one further
string (whose final kind is decided by re-classifying that joined
text, so it is paragraph only when the joined text is not itself
classified as a heading). -/
theorem c1_chunk_structure (raw : String) :
    (∀ chunk : List Char, (chunkBlocks chunk).length ≤ 2) ∧
    classify_blocks (split_text_to_blocks raw) =
      ((splitBlank raw.data).flatMap chunkBlocks).map
        (fun t =>
          if looks_like_chapter_heading t then
            ({ kind := "chapter", text := t } : Block)
          else { kind := "paragraph", text := t }) ∧
    (∀ (chunk : List Char) (hd : String) (tl : List String),
       survivingLines chunk = hd :: tl →
       chunkBlocks chunk =
         if looks_like_chapter_heading hd then
           hd :: (if tl = [] then [] else
             [normalize_space (String.intercalate " " tl)])
         else [normalize_space (String.intercalate " " (hd :: tl))]) := by
  refine ⟨?_, rfl, ?_⟩
  · intro chunk
    unfold chunkBlocks
    cases h : survivingLines chunk with
    | nil => simp
    | cons hd tl =>
        dsimp only
        split_ifs <;> simp
  · intro chunk hd tl h
    unfold chunkBlocks
    rw [h]

/-- C1 (witness for the amended theorem): the chunk "CHAPTER\nONE" has
surviving lines ["CHAPTER", "ONE"] and contributes exactly the heading
line plus the joined remainder. -/
theorem c1_witness :
    chunkBlocks "CHAPTER\nONE".data = [ "CHAPTER", "ONE"] := by
  have h := (c1_chunk_structure "").2.2 "CHAPTER\nONE".data "CHAPTER" [ "ONE"]
    (by decide)
  rw [h]
  decide

/-- C2 (counterexample): the line "CHAPTER ONE A B C D E F G H" has 10
whitespace-separated words, yet the classifier returns true, because
the chapter/book/part prefix rule is tested before the word-count
guard. -/
theorem c2_counterexample :
    9 < (pyWords "CHAPTER ONE A B C D E F G H".data).length ∧
    looks_like_chapter_heading "CHAPTER ONE A B C D E F G H" = true := by
  decide

/-- C2 (amended): for every line with more than 9 whitespace-separated
words that does not match the chapter/book/part prefix pattern, the
classifier returns false, even when the line is entirely upper-case. -/
theorem c2_long_line_not_heading (line : String)
    (hre : chapterReMatch line.data = false)
    (h9 : 9 < (pyWords line.data).length) :
    looks_like_chapter_heading line = false := by
  simp [looks_like_chapter_heading, hre, h9]

/-- C2 (witness): a fully upper-case 10-word line without the prefix is
rejected. -/
theorem c2_witness :
    looks_like_chapter_heading "AAA BBB CCC DDD EEE FFF GGG HHH III JJJ" = false :=
  c2_long_line_not_heading "AAA BBB CCC DDD EEE FFF GGG HHH III JJJ"
    (by decide) (by decide)

/-- C6: for every extension and every successful extraction result,
parse_manuscript fails with the empty-manuscript error exactly when
the extension reaches classification and classification yields zero
blocks, and every successfully returned Manuscript has a non-empty
block list. -/
theorem c6_empty_iff (suffix : String) (extracted : List String)
    (title author : String) :
    (parse_manuscript suffix extracted title author = .error emptyMessage ↔
       pyLower suffix ∈ parsedSuffixes ∧ classify_blocks extracted = []) ∧
    (∀ m : Manuscript,
       parse_manuscript suffix extracted title author = .ok m →
       m.blocks ≠ []) := by
  have hm : mobiMessage ≠ emptyMessage := by decide
  have hk : kpfMessage ≠ emptyMessage := by decide
  have hu : unsupportedMessage ≠ emptyMessage := by decide
  unfold parse_manuscript
  dsimp only
  split_ifs with h1 h2 <;>
    simp_all [mem_parsedSuffixes_iff]
  tauto

/-- C6 (witness): a .txt source whose extraction yields no lines fails
with the empty-manuscript error. -/
theorem c6_witness :
    parse_manuscript ".txt" [] "t" "a" = .error emptyMessage :=
  (c6_empty_iff ".txt" [] "t" "a").1.mpr ⟨by decide, rfl⟩

/-- C8 (counterexample): a .mobi path does fail, with the deprecation
message, but that message nowhere references fixed-layout (it cites
deprecation "for many KDP workflows"): it contains neither
"fixed-layout" nor "fixed layout" nor the words "fixed" or "layout" in
any spelling that occurs. -/
theorem c8_counterexample :
    parse_manuscript ".mobi" [] "t" "a" = .error mobiMessage ∧
    containsSub "fixed".data mobiMessage.data = false ∧
    containsSub "Fixed".data mobiMessage.data = false ∧
    containsSub "layout".data mobiMessage.data = false ∧
    containsSub "Layout".data mobiMessage.data = false := by
  refine ⟨rfl, ?_, ?_, ?_, ?_⟩ <;> decide

/-- C8 (amended): for every path whose lower-cased extension is .mobi,
parse_manuscript fails with the deprecation error whose message
references the format's deprecation for KDP workflows (not
specifically fixed-layout); for .kpf it fails with the pass-through
error signaling the file is already KDP-ready pass-through. -/
theorem c8_degenerate_formats (suffix : String) (extracted : List String)
    (title author : String) :
    (pyLower suffix = ".mobi" →
       parse_manuscript suffix extracted title author = .error mobiMessage ∧
       containsSub "deprecated".data mobiMessage.data = true ∧
       containsSub "KDP workflows".data mobiMessage.data = true) ∧
    (pyLower suffix = ".kpf" →
       parse_manuscript suffix extracted title author = .error kpfMessage ∧
       containsSub "KDP-ready".data kpfMessage.data = true ∧
       containsSub "pass-through".data kpfMessage.data = true) := by
  constructor <;> intro h <;>
    exact ⟨by simp [parse_manuscript, h], by decide, by decide⟩

/-- C8 (witness): the two degenerate extensions at concrete inputs. -/
theorem c8_witness :
    parse_manuscript ".mobi" [ "x"] "t" "a" = .error mobiMessage ∧
    parse_manuscript ".kpf" [ "x"] "t" "a" = .error kpfMessage :=
  ⟨((c8_degenerate_formats ".mobi" [ "x"] "t" "a").1 (by decide)).1,
   ((c8_degenerate_formats ".kpf" [ "x"] "t" "a").2 (by decide)).1⟩

/-- C3 (counterexample): the spec scenario image — decodable JPEG,
800x1200, RGB, 72 DPI on both axes, 2MB — does not pass validation
with zero errors: 1200/800 = 1.5 is below the required 1.6 ratio, so
the result is invalid with exactly the aspect-ratio error. -/
theorem c3_counterexample :
    (validate_cover_image
        (.ok { format := some "JPEG", mode := "RGB", width := 800,
               height := 1200, dpi := some (72, 72) }) 2 "cover").valid = false ∧
    (validate_cover_image
        (.ok { format := some "JPEG", mode := "RGB", width := 800,
               height := 1200, dpi := some (72, 72) }) 2 "cover").errors =
      [.badRatio (3 / 2)] := by
  rw [validate_valid_eq_isEmpty]
  constructor <;>
    norm_num [validate_cover_image, coverRatio, KDP_ALLOWED_FORMATS,
      KDP_MIN_WIDTH, KDP_MIN_HEIGHT, KDP_MAX_WIDTH, KDP_MAX_HEIGHT,
      KDP_MIN_RATIO, KDP_REQUIRED_DPI, KDP_MAX_SIZE_MB,
      show pyUpper "JPEG" = "JPEG" from rfl]

/-- C3 (amended): the 800x1200 RGB JPEG at 72 DPI and 2MB yields
exactly one error, the aspect-ratio error (ratio 1.5 < 1.6); the
identical image at 96 DPI yields exactly two errors, the aspect-ratio
error and the DPI-value error, and no other. -/
theorem c3_scenario_errors :
    (validate_cover_image
        (.ok { format := some "JPEG", mode := "RGB", width := 800,
               height := 1200, dpi := some (72, 72) }) 2 "front").errors =
      [.badRatio (3 / 2)] ∧
    (validate_cover_image
        (.ok { format := some "JPEG", mode := "RGB", width := 800,
               height := 1200, dpi := some (96, 96) }) 2 "front").errors =
      [.badRatio (3 / 2), .badDpi 96 96] := by
  constructor <;>
    norm_num [validate_cover_image, coverRatio, KDP_ALLOWED_FORMATS,
      KDP_MIN_WIDTH, KDP_MIN_HEIGHT, KDP_MAX_WIDTH, KDP_MAX_HEIGHT,
      KDP_MIN_RATIO, KDP_REQUIRED_DPI, KDP_MAX_SIZE_MB,
      show pyUpper "JPEG" = "JPEG" from rfl]

/-- C4: for every decodable input image and every role, the output of
auto_correct_cover_to_kdp revalidates as valid: every check is
satisfied by construction (JPEG, 1600x2560, ratio exactly 1.6, DPI
(72,72), RGB).  The on-disk size of the encoded JPEG is outside the
embedding; it enters as `out_size` with the physically guaranteed
bound that a 1600x2560 quality-95 JPEG is below the 50MB cap. -/
theorem c4_roundtrip (img : DecodedImage) (out_size : ℚ) (role : String)
    (hsize : out_size < KDP_MAX_SIZE_MB) :
    (validate_cover_image (.ok (auto_correct_cover_to_kdp img))
        out_size role).valid = true := by
  have h50 : ¬ (out_size ≥ KDP_MAX_SIZE_MB) := not_le.mpr hsize
  rw [validate_valid_eq_isEmpty]
  norm_num [validate_cover_image, auto_correct_cover_to_kdp, coverRatio,
    KDP_ALLOWED_FORMATS, KDP_IDEAL_WIDTH, KDP_IDEAL_HEIGHT, KDP_MIN_WIDTH,
    KDP_MIN_HEIGHT, KDP_MAX_WIDTH, KDP_MAX_HEIGHT, KDP_MIN_RATIO,
    KDP_REQUIRED_DPI, show pyUpper "JPEG" = "JPEG" from rfl, h50]

/-- C4 (witness): a small non-compliant PNG/RGBA input round-trips to a
valid result. -/
theorem c4_witness :
    (validate_cover_image
        (.ok (auto_correct_cover_to_kdp
          { format := some "PNG", mode := "RGBA", width := 30, height := 40,
            dpi := none })) 2 "front").valid = true :=
  c4_roundtrip
    { format := some "PNG", mode := "RGBA", width := 30, height := 40,
      dpi := none } 2 "front" (by norm_num [KDP_MAX_SIZE_MB])

/-- Helper: Python round never exceeds an integer bound strictly above
its argument. -/
theorem pyRound_le_of_lt {q : ℚ} {B : ℤ} (h : q < B) : pyRound q ≤ B := by
  have hf : ⌊q⌋ < B := Int.floor_lt.mpr (by exact_mod_cast h)
  unfold pyRound
  dsimp only
  split_ifs <;> omega

/-- C5 (counterexample): auto_correct_cover_to_kdp scales a 100x160
image (aspect ratio exactly 5:8, smaller than the target box) UP to
1600x2560: the fitted artwork exceeds the original width and height,
refuting "only ever scales down, never up". -/
theorem c5_counterexample :
    auto_correct_fitted
        { format := some "JPEG", mode := "RGB", width := 100, height := 160,
          dpi := some (72, 72) } = (1600, 2560) ∧ 100 < 1600 ∧ 160 < 2560 := by
  refine ⟨?_, by norm_num, by norm_num⟩
  norm_num [auto_correct_fitted, containSize, KDP_IDEAL_WIDTH, KDP_IDEAL_HEIGHT]

/-- C5 (amended): the resized artwork always fits within 1600x2560
(preserving the aspect ratio up to PIL rounding), but the scaling goes
in whichever direction makes the image meet the box, so the fitted
size may exceed the original when the input is smaller than the box. -/
theorem c5_fitted_within (img : DecodedImage)
    (hw : 0 < img.width) (hh : 0 < img.height) :
    (auto_correct_fitted img).1 ≤ KDP_IDEAL_WIDTH ∧
    (auto_correct_fitted img).2 ≤ KDP_IDEAL_HEIGHT := by
  have hwq : (0 : ℚ) < (img.width : ℚ) := by exact_mod_cast hw
  have hhq : (0 : ℚ) < (img.height : ℚ) := by exact_mod_cast hh
  have h2560 : (0 : ℚ) < ((2560 : Nat) : ℚ) := by norm_num
  unfold auto_correct_fitted containSize
  simp only [KDP_IDEAL_WIDTH, KDP_IDEAL_HEIGHT]
  split_ifs with hne hgt hnh hnw
  · -- image ratio wider than the box: width pinned to 1600
    refine ⟨le_refl _, ?_⟩
    have key2 : ((1600 : ℚ)) * (img.height : ℚ) < (img.width : ℚ) * 2560 := by
      have := (div_lt_div_iff₀ h2560 hhq).mp hgt
      push_cast at this ⊢
      linarith
    have hlt : (img.height : ℚ) / (img.width : ℚ) * ((1600 : Nat) : ℚ) <
        ((2560 : Nat) : ℚ) := by
      rw [div_mul_eq_mul_div, div_lt_iff₀ hwq]
      push_cast
      linarith
    have hb := pyRound_le_of_lt (B := (2560 : ℤ)) (by exact_mod_cast hlt)
    exact Int.toNat_le.mpr hb
  · exact ⟨le_refl _, le_refl _⟩
  · -- image ratio narrower than the box: height pinned to 2560
    refine ⟨?_, le_refl _⟩
    have hlt2 : (img.width : ℚ) / (img.height : ℚ) <
        ((1600 : Nat) : ℚ) / ((2560 : Nat) : ℚ) :=
      lt_of_le_of_ne (not_lt.mp hgt) hne
    have key2 : (img.width : ℚ) * 2560 < 1600 * (img.height : ℚ) := by
      have := (div_lt_div_iff₀ hhq h2560).mp hlt2
      push_cast at this ⊢
      linarith
    have hlt : (img.width : ℚ) / (img.height : ℚ) * ((2560 : Nat) : ℚ) <
        ((1600 : Nat) : ℚ) := by
      rw [div_mul_eq_mul_div, div_lt_iff₀ hhq]
      push_cast
      linarith
    have hb := pyRound_le_of_lt (B := (1600 : ℤ)) (by exact_mod_cast hlt)
    exact Int.toNat_le.mpr hb
  · exact ⟨le_refl _, le_refl _⟩
  · exact ⟨le_refl _, le_refl _⟩

/-- C5 (witness for the amended theorem): a 4000x5000 input is fitted
within the box. -/
theorem c5_witness :
    (auto_correct_fitted
        { format := some "JPEG", mode := "RGB", width := 4000, height := 5000,
          dpi := none }).1 ≤ KDP_IDEAL_WIDTH ∧
    (auto_correct_fitted
        { format := some "JPEG", mode := "RGB", width := 4000, height := 5000,
          dpi := none }).2 ≤ KDP_IDEAL_HEIGHT :=
  c5_fitted_within
    { format := some "JPEG", mode := "RGB", width := 4000, height := 5000,
      dpi := none } (by norm_num) (by norm_num)

/-- C7: every result of validate_cover_image has valid true exactly
when its error list is empty; valid is computed from the errors alone,
so the warnings never affect it. -/
theorem c7_valid_iff_no_errors (decoded : Except String DecodedImage)
    (size_mb : ℚ) (role : String) :
    ((validate_cover_image decoded size_mb role).valid = true ↔
      (validate_cover_image decoded size_mb role).errors = []) := by
  rw [validate_valid_eq_isEmpty]
  exact List.isEmpty_iff

/-- C9: when the decoded image has width 0 the ratio is computed as 0
(no division by zero is performed — the embedding is a total
function), and that ratio fails the minimum-ratio check, so the
aspect-ratio error is appended. -/
theorem c9_zero_width (img : DecodedImage) (size_mb : ℚ) (role : String)
    (h0 : img.width = 0) :
    coverRatio img = 0 ∧
    CoverIssue.badRatio (coverRatio img) ∈
      (validate_cover_image (.ok img) size_mb role).errors := by
  have hr : coverRatio img = 0 := by simp [coverRatio, h0]
  have hcond : coverRatio img < KDP_MIN_RATIO := by
    rw [hr]; norm_num [ KDP_MIN_RATIO]
  refine ⟨hr, ?_⟩
  simp [validate_cover_image, hcond]

/-- C9 (witness): a zero-width image gets the aspect-ratio error. -/
theorem c9_witness :
    coverRatio { format := some "JPEG", mode := "RGB", width := 0,
                 height := 1000, dpi := some (72, 72) } = 0 ∧
    CoverIssue.badRatio
        (coverRatio { format := some "JPEG", mode := "RGB", width := 0,
                      height := 1000, dpi := some (72, 72) }) ∈
      (validate_cover_image
          (.ok { format := some "JPEG", mode := "RGB", width := 0,
                 height := 1000, dpi := some (72, 72) }) 2 "front").errors :=
  c9_zero_width
    { format := some "JPEG", mode := "RGB", width := 0, height := 1000,
      dpi := some (72, 72) } 2 "front" rfl

/-- C10: for every decodable image the validator result is identical
for all role values — the role string is only interpolated into the
error text of the unreadable-image branch. -/
theorem c10_role_independent (img : DecodedImage) (size_mb : ℚ)
    (r1 r2 : String) :
    validate_cover_image (.ok img) size_mb r1 =
      validate_cover_image (.ok img) size_mb r2 := rfl

end Studio
